import Mathlib

/-!
Shallow embedding of the correlation / impact-classification core of the
`portfolio_sre_agent` backend (`backend/app/triage/...`), together with
theorems settling the frozen claims about its specification.

Conventions of the embedding:
* Python floats are modelled as rationals (`ℚ`); timestamps are modelled as
  epoch seconds in `ℚ`, and each Python call to `now_utc()` inside one
  engine invocation is modelled by a single `now` parameter.
* Python dictionaries are modelled as association lists with unique keys and
  insertion-order-preserving update (`alookup` / `ainsert`).
* `uuid4()` is modelled by an explicit fresh-identifier parameter.
* Fallible Python code (paths that raise `AttributeError` / `TypeError` /
  pydantic `ValidationError`) is modelled with `Except String`.
-/

/-- `app.triage.models.Provider`. -/
inductive Provider where
  | prometheus
  | datadog
  | betterstack
  | generic
deriving DecidableEq, Repr

/-- `app.triage.models.SignalType`. -/
inductive SignalType where
  | saturation
  | latency
  | errors
  | other
deriving DecidableEq, Repr

/-- `app.triage.models.Severity`. -/
inductive Severity where
  | info
  | warning
  | critical
deriving DecidableEq, Repr

/-- `app.triage.models.SignalState`. -/
inductive SignalState where
  | ok
  | warning
  | critical
deriving DecidableEq, Repr

/-- `app.triage.models.Trend`. -/
inductive Trend where
  | up
  | down
  | flat
  | unknown
deriving DecidableEq, Repr

/-- `app.triage.models.IncidentStatus`. -/
inductive IncidentStatus where
  | watch
  | investigating
  | mitigating
  | resolved
deriving DecidableEq, Repr

/-- `app.triage.models.ImpactLevel`. -/
inductive ImpactLevel where
  | none
  | minor
  | major
deriving DecidableEq, Repr

/-- `app.triage.models.ResolutionStatus`. -/
inductive ResolutionStatus where
  | none
  | resolved
  | auto_closed
  | false_alert
  | accepted
deriving DecidableEq, Repr

/-- The `.value` string of a `SignalType` member (Python `str` enum). -/
def SignalType.value : SignalType → String
  | .saturation => "saturation"
  | .latency => "latency"
  | .errors => "errors"
  | .other => "other"

/-- A Python/JSON value as it appears in webhook payloads.  Dictionary keys
are strings and are assumed unique (payloads come from JSON parsing). -/
inductive PyVal where
  | none : PyVal
  | bool : Bool → PyVal
  | int : Int → PyVal
  | float : ℚ → PyVal
  | str : String → PyVal
  | list : List PyVal → PyVal
  | dict : List (String × PyVal) → PyVal

/-- Python truthiness of a value (`if value:`). -/
def pyTruthy : PyVal → Bool
  | .none => false
  | .bool b => b
  | .int n => n ≠ 0
  | .float q => q ≠ 0
  | .str s => s ≠ ""
  | .list l => ¬ l.isEmpty
  | .dict d => ¬ d.isEmpty

/-- Python `a or b` on payload values: `a` if truthy, else `b`. -/
def pyOr (a b : PyVal) : PyVal := if pyTruthy a then a else b

/-- Approximate rendering of a Python float; no claim depends on rendered
numeric text. -/
def ratRepr (q : ℚ) : String := toString q.num ++ "/" ++ toString q.den

mutual

/-- Python `str()` / `repr()` of a payload value.  Approximations, each
irrelevant to every claim: floats are rendered as `num/den`, and strings
inside containers are rendered without quotes. -/
def pyRepr : PyVal → String
  | .none => "None"
  | .bool b => if b then "True" else "False"
  | .int n => toString n
  | .float q => ratRepr q
  | .str s => s
  | .list l => "[" ++ pyReprList l ++ "]"
  | .dict d => "\x7b" ++ pyReprDict d ++ "\x7d"

/-- Comma-separated rendering of a list of payload values. -/
def pyReprList : List PyVal → String
  | [] => ""
  | [x] => pyRepr x
  | x :: xs => pyRepr x ++ ", " ++ pyReprList xs

/-- Comma-separated rendering of dictionary items. -/
def pyReprDict : List (String × PyVal) → String
  | [] => ""
  | [(k, v)] => k ++ ": " ++ pyRepr v
  | (k, v) :: rest => k ++ ": " ++ pyRepr v ++ ", " ++ pyReprDict rest

end

/-- Python `str(value)`: strings render as themselves, everything else via
`pyRepr`. -/
def pyStr : PyVal → String
  | .str s => s
  | v => pyRepr v

/-- Association-list lookup modelling Python dictionary access (keys are
unique, first match wins). -/
def alookup {α β : Type} [DecidableEq α] : List (α × β) → α → Option β
  | [], _ => Option.none
  | (k, v) :: rest, key => if k = key then Option.some v else alookup rest key

/-- Association-list update modelling Python `d[k] = v`: replaces the value
in place when the key exists, otherwise appends the new entry. -/
def ainsert {α β : Type} [DecidableEq α] : List (α × β) → α → β → List (α × β)
  | [], key, val => [(key, val)]
  | (k, v) :: rest, key, val =>
    if k = key then (k, val) :: rest else (k, v) :: ainsert rest key val

/-- Python `d.get(key, default)` on a payload dictionary. -/
def pyGetD (d : List (String × PyVal)) (key : String) (dflt : PyVal) : PyVal :=
  (alookup d key).getD dflt

/-- Membership of a key in a payload dictionary (`key in d`). -/
def hasKey (d : List (String × PyVal)) (key : String) : Bool :=
  (alookup d key).isSome

/-- Python string truthiness chain `a or b` on optional strings (empty string
is falsy). -/
def orOptStr (x y : Option String) : Option String :=
  match x with
  | Option.some s => if s = "" then y else Option.some s
  | Option.none => y

/-- Final step of a Python `... or "default"` chain on optional strings. -/
def orStr (x : Option String) (y : String) : String :=
  match x with
  | Option.some s => if s = "" then y else s
  | Option.none => y

/-- Lift an optional string into a payload value (`None` / `str`). -/
def optStrToPy : Option String → PyVal
  | Option.none => PyVal.none
  | Option.some s => PyVal.str s

/-- Whether `pat` occurs as a contiguous run inside `l` (Python `pat in s`). -/
def listHasSub (pat : List Char) : List Char → Bool
  | [] => pat.isEmpty
  | c :: rest => pat.isPrefixOf (c :: rest) || listHasSub pat rest

/-- Python substring test `pat in s`. -/
def strContains (s pat : String) : Bool := listHasSub pat.data s.data

/-- Split a list at the first occurrence of `c` (Python `split(c, 1)` when the
separator occurs; `Option.none` when it does not). -/
def splitAtFirst (c : Char) : List Char → Option (List Char × List Char)
  | [] => Option.none
  | x :: xs =>
    if x = c then Option.some ([], xs)
    else (splitAtFirst c xs).map (fun p => (x :: p.1, p.2))

/-- Decimal value of a non-empty all-digit character list. -/
def decDigits (l : List Char) : Option ℕ :=
  if l.isEmpty then Option.none
  else
    l.foldl
      (fun acc c =>
        match acc with
        | Option.none => Option.none
        | Option.some n => if c.isDigit then Option.some (n * 10 + (c.toNat - 48)) else Option.none)
      (Option.some 0)

/-- Python `float(s)` on a string, modelled for the common decimal forms
`[sign] digits [. digits]`; exponent notation and special values such as
`inf`/`nan` are not modelled (no claim depends on parsed numeric values). -/
def pyFloatOfString (s : String) : Option ℚ :=
  let t := s.trim
  let signAndDigits : ℚ × List Char :=
    match t.data with
    | '-' :: r => (-1, r)
    | '+' :: r => (1, r)
    | r => (1, r)
  let sign := signAndDigits.1
  let ds := signAndDigits.2
  match splitAtFirst '.' ds with
  | Option.none => (decDigits ds).map (fun n => sign * n)
  | Option.some (ip, fp) =>
    match decDigits ip, decDigits fp with
    | Option.some i, Option.some f =>
      Option.some (sign * ((i : ℚ) + (f : ℚ) / (10 ^ fp.length)))
    | _, _ => Option.none

/-- `app.triage.normalize.normalize._parse_float`: best-effort float parse,
`None` on failure (`TypeError` / `ValueError` are caught by the source).
Python treats `bool` as a subclass of `int`, so booleans convert to 1/0. -/
def parse_float : PyVal → Option ℚ
  | PyVal.none => Option.none
  | PyVal.int n => Option.some (n : ℚ)
  | PyVal.float q => Option.some q
  | PyVal.bool b => Option.some (if b then 1 else 0)
  | PyVal.str s => pyFloatOfString s
  | _ => Option.none

/-- ISO-8601 datetime parsing (`datetime.fromisoformat`) is modelled as an
unspecified total function; no claim depends on parsed datetime values. -/
def parseIsoModel (_s : String) : Option ℚ := Option.none

/-- `app.triage.utils.parse_datetime`: best-effort datetime parse to epoch
seconds.  Numbers above `10 ^ 12` are heuristically treated as milliseconds.
`datetime.fromtimestamp` range errors on astronomically large epochs are not
modelled. -/
def parse_datetime : PyVal → Option ℚ
  | PyVal.none => Option.none
  | PyVal.int n =>
    Option.some (if (1000000000000 : ℚ) < (n : ℚ) then (n : ℚ) / 1000 else (n : ℚ))
  | PyVal.float q =>
    Option.some (if (1000000000000 : ℚ) < q then q / 1000 else q)
  | PyVal.bool b => Option.some (if b then 1 else 0)
  | PyVal.str s =>
    let t := s.trim
    if t = "" then Option.none else parseIsoModel t
  | _ => Option.none

/-- SHA-1 hex digest (`hashlib.sha1(...).hexdigest()`) modelled as an
uninterpreted executable placeholder; no claim depends on digest values. -/
def sha1_hex (s : String) : String := s

/-- `app.triage.utils.stable_fingerprint`: pipe-join of the trimmed parts,
hashed. -/
def stable_fingerprint (parts : List String) : String :=
  sha1_hex (String.intercalate "|" (parts.map String.trim))

/-- `app.triage.normalize.normalize._parse_severity`.  A falsy value (missing,
empty string, 0, ...) returns `warning`; otherwise the trimmed lower-cased
text is matched against keyword lists, defaulting to `info`. -/
def parse_severity (value : PyVal) : Severity :=
  if ¬ pyTruthy value then Severity.warning
  else
    let s := (pyStr value).trim.toLower
    if s = "critical" ∨ s = "crit" ∨ s = "page" ∨ s = "p1" ∨ s = "high" then Severity.critical
    else if s = "warning" ∨ s = "warn" ∨ s = "p2" ∨ s = "medium" then Severity.warning
    else Severity.info

/-- The severity mapping exactly as the claim states it: a case-insensitive
keyword map in which *every* unlisted value — including a missing or empty
one — maps to `info`.  (Stated from the spec's words, to be compared with
`parse_severity`, which is translated from the source.) -/
def parse_severity_spec (value : PyVal) : Severity :=
  let s := (pyStr value).trim.toLower
  if s = "critical" ∨ s = "crit" ∨ s = "page" ∨ s = "p1" ∨ s = "high" then Severity.critical
  else if s = "warning" ∨ s = "warn" ∨ s = "p2" ∨ s = "medium" then Severity.warning
  else Severity.info

/-- `app.triage.normalize.normalize._infer_signal_type`: an explicit
label/annotation hint is checked first with substring rules; on no match the
alert name/title is scanned with a second set of substring rules; else
`other`. -/
def infer_signal_type (name : Option String) (labels annots : List (String × String)) : SignalType :=
  let blobResult :=
    let blob := (name.getD "").toLower
    if strContains blob "satur" ∨ strContains blob "cpu" ∨ strContains blob "pool" ∨
        strContains blob "capacity" ∨ strContains blob "utilization" ∨ strContains blob "exhaust" then
      SignalType.saturation
    else if strContains blob "latency" ∨ strContains blob "p99" ∨ strContains blob "p95" ∨
        strContains blob "duration" ∨ strContains blob "slow" then
      SignalType.latency
    else if strContains blob "error" ∨ strContains blob "errors" ∨ strContains blob "5xx" ∨
        strContains blob "exception" ∨ strContains blob "fault" then
      SignalType.errors
    else SignalType.other
  let explicit :=
    orOptStr (alookup labels "signal")
      (orOptStr (alookup labels "signal_type")
        (orOptStr (alookup annots "signal") (alookup annots "signal_type")))
  match explicit with
  | Option.none => blobResult
  | Option.some e =>
    if e = "" then blobResult
    else
      let s := e.trim.toLower
      if strContains s "satur" ∨ s = "cpu" ∨ s = "pool" ∨ s = "capacity" then SignalType.saturation
      else if strContains s "lat" ∨ strContains s "p99" ∨ strContains s "p95" ∨ strContains s "slo" then SignalType.latency
      else if strContains s "err" ∨ strContains s "5xx" then SignalType.errors
      else blobResult

/-- `app.triage.normalize.normalize._extract_service_env`: service from the
label precedence chain (default `"unknown"`), env from labels (default
`"prod"`); `key:value` tags may fill a still-unknown service and always
override env. -/
def extract_service_env (labels : List (String × String)) (tags : Option (List String)) : String × String :=
  let service :=
    orStr
      (orOptStr (alookup labels "service")
        (orOptStr (alookup labels "app")
          (orOptStr (alookup labels "job") (alookup labels "component"))))
      "unknown"
  let env := orStr (orOptStr (alookup labels "env") (alookup labels "environment")) "prod"
  match tags with
  | Option.none => (service, env)
  | Option.some ts =>
    if ts.isEmpty then (service, env)
    else
      ts.foldl
        (fun se t =>
          match splitAtFirst ':' t.data with
          | Option.none => se
          | Option.some (k0, v0) =>
            let k := (String.mk k0).trim.toLower
            let v := (String.mk v0).trim
            let s1 := if k = "service" ∧ se.1 = "unknown" then v else se.1
            let e1 := if k = "env" ∨ k = "environment" then v else se.2
            (s1, e1))
        (service, env)

/-- Models `{str(k): str(v) for k, v in (x or {}).items()}`: a falsy value
yields the empty mapping, a truthy non-dictionary raises `AttributeError`
(no `.items`). -/
def strDict (v : PyVal) : Except String (List (String × String)) :=
  if ¬ pyTruthy v then Except.ok []
  else
    match v with
    | PyVal.dict kvs => Except.ok (kvs.map (fun kv => (kv.1, pyStr kv.2)))
    | _ => Except.error "AttributeError"

/-- Validation of a pydantic `str | None` field receiving an arbitrary payload
value: pydantic v2 lax mode does not coerce non-strings to `str`. -/
def asOptStr : PyVal → Except String (Option String)
  | PyVal.none => Except.ok Option.none
  | PyVal.str s => Except.ok (Option.some s)
  | _ => Except.error "ValidationError"

/-- `app.triage.models.AlertEvent` (datetimes as epoch seconds in `ℚ`). -/
structure AlertEvent where
  id : String
  provider : Provider
  received_at : ℚ
  starts_at : Option ℚ := Option.none
  ends_at : Option ℚ := Option.none
  service : String
  env : String := "prod"
  severity : Severity := Severity.warning
  signal_type : SignalType := SignalType.other
  metric : Option String := Option.none
  observed : Option ℚ := Option.none
  threshold : Option ℚ := Option.none
  unit : Option String := Option.none
  message : Option String := Option.none
  labels : List (String × String) := []
  annotations : List (String × String) := []
  fingerprint : String
  source_url : Option String := Option.none
  raw : Option PyVal := Option.none

/-- `app.triage.models.SignalSnapshot`. -/
structure SignalSnapshot where
  signal_type : SignalType
  state : SignalState
  trend : Trend := Trend.unknown
  observed : Option ℚ := Option.none
  threshold : Option ℚ := Option.none
  unit : Option String := Option.none
  last_updated_at : ℚ
  history : List ℚ := []

/-- `app.triage.models.ImpactAssessment`. -/
structure ImpactAssessment where
  impact : ImpactLevel := ImpactLevel.none
  confidence : ℚ := 0.5
  classification : String := "unknown"
  summary : String := ""
  reasons : List String := []

/-- `app.triage.models.Incident`. -/
structure Incident where
  id : String
  service : String
  env : String
  status : IncidentStatus := IncidentStatus.watch
  created_at : ℚ
  updated_at : ℚ
  impact : ImpactAssessment := {}
  signals : List (SignalType × SignalSnapshot) := []
  alerts : List AlertEvent := []
  resolution_status : ResolutionStatus := ResolutionStatus.none
  resolution_note : Option String := Option.none

/-- `app.triage.correlation.engine.CorrelationConfig` (frozen dataclass with
its default values). -/
structure CorrelationConfig where
  incident_window_minutes : ℕ := 60
  dedupe_window_seconds : ℕ := 120
  max_signal_history : ℕ := 12
  saturation_warn_ratio : ℚ := 0.9
  generic_warn_ratio : ℚ := 0.95

/-- The default `CorrelationConfig()`. -/
def defaultConfig : CorrelationConfig := {}

/-- `app.triage.store.memory.MemoryIncidentStore` (dictionaries as
association lists; dedupe-cache keys are the `f"{incident_id}:{fingerprint}"`
strings). -/
structure MemoryIncidentStore where
  incidents : List (String × Incident) := []
  service_env_index : List ((String × String) × List String) := []
  dedupe_cache : List (String × ℚ) := []

/-- `MemoryIncidentStore.upsert`: store the incident and make sure its id is
indexed under `(service, env)` (Python `setdefault` + conditional append). -/
def upsert (store : MemoryIncidentStore) (incident : Incident) : MemoryIncidentStore :=
  let incidents := ainsert store.incidents incident.id incident
  let key := (incident.service, incident.env)
  let ids := (alookup store.service_env_index key).getD []
  let ids := if incident.id ∈ ids then ids else ids ++ [incident.id]
  { incidents := incidents
    service_env_index := ainsert store.service_env_index key ids
    dedupe_cache := store.dedupe_cache }

/-- `MemoryIncidentStore.find_open`: candidates from the `(service, env)`
index that still exist, filtered to non-resolved incidents updated within the
look-back window, and the most recently updated of those (Python `max` keeps
the first maximal element). -/
def find_open (store : MemoryIncidentStore) (service env : String) (withinSeconds now : ℚ) : Option Incident :=
  let ids := (alookup store.service_env_index (service, env)).getD []
  let candidates := ids.filterMap (fun iid => alookup store.incidents iid)
  let cutoff := now - withinSeconds
  let candidates :=
    candidates.filter (fun inc =>
      decide (inc.status ≠ IncidentStatus.resolved) && decide (cutoff ≤ inc.updated_at))
  match candidates with
  | [] => Option.none
  | x :: xs =>
    Option.some (xs.foldl (fun best c => if best.updated_at < c.updated_at then c else best) x)

/-- `MemoryIncidentStore.seen_recently`: whether the dedupe cache holds the
pair's key with a timestamp at most `withinSeconds` old. -/
def seen_recently (store : MemoryIncidentStore) (incident_id fingerprint : String)
    (withinSeconds now : ℚ) : Bool :=
  match alookup store.dedupe_cache (incident_id ++ ":" ++ fingerprint) with
  | Option.none => false
  | Option.some last => decide (now - last ≤ withinSeconds)

/-- `MemoryIncidentStore.mark_seen`: record the pair's key with the current
time. -/
def mark_seen (store : MemoryIncidentStore) (incident_id fingerprint : String) (now : ℚ) :
    MemoryIncidentStore :=
  { store with dedupe_cache := ainsert store.dedupe_cache (incident_id ++ ":" ++ fingerprint) now }

/-- Python `history[-k:]`, including the `k = 0` edge where `l[-0:]` is the
whole list. -/
def pySliceLast (k : ℕ) (l : List ℚ) : List ℚ :=
  if k = 0 then l else l.drop (l.length - k)

/-- `app.triage.correlation.engine._compute_state`.  The source first falls
back to the event's severity when either numeric field is missing, and
otherwise compares against the threshold, warning at
`threshold * warn_ratio`. -/
def compute_state (event : AlertEvent) (cfg : CorrelationConfig) : SignalState :=
  match event.observed, event.threshold with
  | Option.some o, Option.some t =>
    let warn_ratio :=
      if event.signal_type = SignalType.saturation then cfg.saturation_warn_ratio
      else cfg.generic_warn_ratio
    if t ≤ o then SignalState.critical
    else if t * warn_ratio ≤ o then SignalState.warning
    else SignalState.ok
  | _, _ =>
    if event.severity = Severity.critical then SignalState.critical
    else if event.severity = Severity.warning then SignalState.warning
    else SignalState.ok

/-- `app.triage.correlation.engine._compute_trend`: fewer than three points is
`unknown`; otherwise the last three points `a, b, c` give `up` on a strict
increase exceeding `1e-6`, `down` on a strict decrease exceeding `1e-6`, else
`flat`. -/
def compute_trend (history : List ℚ) : Trend :=
  if history.length < 3 then Trend.unknown
  else
    let a := history.getD (history.length - 3) 0
    let b := history.getD (history.length - 2) 0
    let c := history.getD (history.length - 1) 0
    let eps : ℚ := 1e-6
    if b < c ∧ a < b ∧ eps < c - a then Trend.up
    else if c < b ∧ b < a ∧ eps < a - c then Trend.down
    else Trend.flat

/-- `app.triage.correlation.engine._update_signal_snapshot`: compute the new
state, append the observed value (when present) to the history truncated to
the last `max_signal_history` entries, and recompute the trend. -/
def update_signal_snapshot (snapshot : Option SignalSnapshot) (event : AlertEvent)
    (now : ℚ) (cfg : CorrelationConfig) : SignalSnapshot :=
  let state := compute_state event cfg
  let history :=
    match snapshot with
    | Option.some s => s.history
    | Option.none => []
  let history :=
    match event.observed with
    | Option.some o =>
      let h := history ++ [o]
      if cfg.max_signal_history < h.length then pySliceLast cfg.max_signal_history h else h
    | Option.none => history
  let trend := compute_trend history
  { signal_type := event.signal_type
    state := state
    trend := trend
    observed := event.observed
    threshold := event.threshold
    unit := event.unit
    last_updated_at := now
    history := history }

/-- The prior history the snapshot update starts from (the source's
`list(snapshot.history) if snapshot else []`). -/
def snapHistory : Option SignalSnapshot → List ℚ
  | Option.some s => s.history
  | Option.none => []

/-- The state the impact classifier uses for a signal type: the snapshot's
state when present, else `ok`. -/
def signal_state (incident : Incident) (t : SignalType) : SignalState :=
  match alookup incident.signals t with
  | Option.some s => s.state
  | Option.none => SignalState.ok

/-- Whether the classifier sees the signal's trend as `up` (`False` when the
signal is missing). -/
def trend_up (incident : Incident) (t : SignalType) : Bool :=
  match alookup incident.signals t with
  | Option.some s => decide (s.trend = Trend.up)
  | Option.none => false

/-- `app.triage.correlation.impact.assess_incident`: the ordered,
first-match-wins rule set (the `previous_impact` keyword is accepted and
unused, as in the source). -/
def assess_incident (incident : Incident) (_previous_impact : Option ImpactLevel) :
    ImpactAssessment :=
  let errors_state := signal_state incident SignalType.errors
  let latency_state := signal_state incident SignalType.latency
  let saturation_state := signal_state incident SignalType.saturation
  let errors_up := trend_up incident SignalType.errors
  let latency_up := trend_up incident SignalType.latency
  if errors_state = SignalState.critical ∧ latency_state = SignalState.critical then
    { impact := ImpactLevel.major, confidence := 0.9, classification := "outage",
      summary := "Likely user-facing outage: both errors and latency are critical.",
      reasons := ["Errors and latency are both critical."] }
  else if errors_state = SignalState.critical then
    { impact := ImpactLevel.major, confidence := 0.8, classification := "error_spike",
      summary := "Likely user-facing issue: error rate is critical.",
      reasons := ["Errors are critical."] }
  else if latency_state = SignalState.critical then
    { impact := ImpactLevel.major, confidence := 0.8, classification := "latency_degradation",
      summary := "Likely user-facing issue: latency is critical.",
      reasons := ["Latency is critical."] }
  else if saturation_state = SignalState.critical then
    if errors_state = SignalState.warning ∨ errors_state = SignalState.critical ∨
        latency_state = SignalState.warning ∨ latency_state = SignalState.critical ∨
        errors_up = true ∨ latency_up = true then
      { impact := ImpactLevel.minor, confidence := 0.7, classification := "degradation_possible",
        summary := "Potential degradation: saturation is critical and other signals are worsening.",
        reasons := ["Saturation is critical and errors/latency indicate possible impact."] }
    else
      { impact := ImpactLevel.none, confidence := 0.65, classification := "capacity_warning",
        summary := "Capacity warning: saturation is high, but no evidence of user impact yet.",
        reasons := ["Saturation is critical, but latency and errors are normal."] }
  else if errors_state = SignalState.warning ∨ latency_state = SignalState.warning then
    { impact := ImpactLevel.minor, confidence := 0.6, classification := "investigate",
      summary := "Investigate: warning-level errors/latency without clear outage signals.",
      reasons := ["Latency/errors are warning-level."] }
  else
    { impact := ImpactLevel.none, confidence := 0.55, classification := "healthy",
      summary := "No clear incident signals. System appears healthy.",
      reasons := [] }

/-- `app.triage.correlation.impact.derive_status`. -/
def derive_status (impact : ImpactAssessment) (incident : Incident)
    (previous_impact : Option ImpactLevel) : IncidentStatus :=
  if impact.impact = ImpactLevel.none ∧
      (previous_impact = Option.some ImpactLevel.major ∨
        previous_impact = Option.some ImpactLevel.minor) ∧
      impact.classification = "healthy" then
    IncidentStatus.resolved
  else if impact.impact = ImpactLevel.major ∨ impact.impact = ImpactLevel.minor then
    IncidentStatus.investigating
  else if impact.classification = "capacity_warning" then
    IncidentStatus.watch
  else if incident.alerts.isEmpty then IncidentStatus.resolved
  else IncidentStatus.watch

/-- First-match evaluation of an ordered rule list. -/
def first_match : List (Bool × IncidentStatus) → IncidentStatus → IncidentStatus
  | [], dflt => dflt
  | (cond, s) :: rest, dflt => if cond then s else first_match rest dflt

/-- The status-derivation rules exactly as the claim orders them, as an
explicit first-match rule list.  (Stated from the spec's words, to be
compared with `derive_status`, which is translated from the source.) -/
def derive_status_spec (impact : ImpactAssessment) (incident : Incident)
    (previous_impact : Option ImpactLevel) : IncidentStatus :=
  first_match
    [ (decide ((previous_impact = Option.some ImpactLevel.major ∨
          previous_impact = Option.some ImpactLevel.minor) ∧
          impact.impact = ImpactLevel.none ∧ impact.classification = "healthy"),
        IncidentStatus.resolved)
    , (decide (impact.impact = ImpactLevel.major ∨ impact.impact = ImpactLevel.minor),
        IncidentStatus.investigating)
    , (decide (impact.classification = "capacity_warning"), IncidentStatus.watch)
    , (!incident.alerts.isEmpty, IncidentStatus.watch) ]
    IncidentStatus.resolved

/-- Step 1 of `CorrelationEngine.ingest_event`: resolve the open incident for
the event's `(service, env)` within the look-back window, or create a fresh
one (fresh `uuid4` modelled by `freshId`; new incidents get the model
defaults: status `watch`, empty signals/alerts, default impact). -/
def resolve_incident (cfg : CorrelationConfig) (now : ℚ) (freshId : String)
    (store : MemoryIncidentStore) (event : AlertEvent) : Incident :=
  match find_open store event.service event.env ((cfg.incident_window_minutes : ℚ) * 60) now with
  | Option.some inc => inc
  | Option.none =>
    { id := freshId, service := event.service, env := event.env,
      created_at := now, updated_at := now }

/-- `CorrelationEngine.ingest_event`: resolve the incident, return it
unchanged on a dedupe hit, otherwise mark the pair seen, append the alert,
bump `updated_at`, update the signal snapshot, re-classify, derive the new
status, and upsert.  (`incident.impact` is a pydantic model and always
truthy, so `prev_impact` is always the previous assessment's level.) -/
def ingest_event (cfg : CorrelationConfig) (now : ℚ) (freshId : String)
    (store : MemoryIncidentStore) (event : AlertEvent) : MemoryIncidentStore × Incident :=
  let incident := resolve_incident cfg now freshId store event
  if seen_recently store incident.id event.fingerprint ((cfg.dedupe_window_seconds : ℚ)) now then
    (store, incident)
  else
    let store1 := mark_seen store incident.id event.fingerprint now
    let incident := { incident with alerts := incident.alerts ++ [event], updated_at := now }
    let snapshot := alookup incident.signals event.signal_type
    let incident :=
      { incident with
        signals := ainsert incident.signals event.signal_type
          (update_signal_snapshot snapshot event now cfg) }
    let prev_impact := Option.some incident.impact.impact
    let impact := assess_incident incident prev_impact
    let incident := { incident with impact := impact }
    let incident := { incident with status := derive_status impact incident prev_impact }
    (upsert store1 incident, incident)

/-- `app.triage.normalize.detect.detect_provider`: shape-based provider
detection.  When `"incident"` is absent, Python evaluates
`payload.get("source", "").lower()`, which raises `AttributeError` on a
non-string `source`. -/
def detect_provider (payload : PyVal) : Except String Provider :=
  match payload with
  | PyVal.dict d =>
    match pyGetD d "alerts" PyVal.none with
    | PyVal.list _ => Except.ok Provider.prometheus
    | _ =>
      if hasKey d "event_type" ∧ hasKey d "alert_type" then Except.ok Provider.datadog
      else if hasKey d "incident" then Except.ok Provider.betterstack
      else
        match pyGetD d "source" (PyVal.str "") with
        | PyVal.str s =>
          if strContains s.toLower "betterstack" then Except.ok Provider.betterstack
          else Except.ok Provider.generic
        | _ => Except.error "AttributeError"
  | _ => Except.ok Provider.generic

/-- One iteration of the `normalize_prometheus` loop body: builds the event
for one entry of the `alerts` list.  A non-dictionary entry raises
`AttributeError` at `a.get("labels")`. -/
def prometheus_event (genId : ℕ → String) (now : ℚ) (idx : ℕ) (a : PyVal) :
    Except String AlertEvent :=
  match a with
  | PyVal.dict ad => do
    let labels ← strDict (pyGetD ad "labels" PyVal.none)
    let annots ← strDict (pyGetD ad "annotations" PyVal.none)
    let se := extract_service_env labels Option.none
    let name := orStr (alookup labels "alertname") (orStr (alookup annots "title") "prometheus_alert")
    let st := infer_signal_type (Option.some name) labels annots
    let observed := (orOptStr (alookup annots "observed") (alookup labels "observed")).bind
      (fun s => parse_float (PyVal.str s))
    let threshold := (orOptStr (alookup annots "threshold") (alookup labels "threshold")).bind
      (fun s => parse_float (PyVal.str s))
    let unit := orOptStr (alookup annots "unit") (alookup labels "unit")
    let severity := parse_severity (optStrToPy
      (orOptStr (alookup labels "severity") (alookup annots "severity")))
    let fingerprint := stable_fingerprint
      ["prometheus", se.1, se.2, st.value,
        (alookup labels "alertname").getD "", (alookup labels "instance").getD ""]
    let source_url ← asOptStr (pyGetD ad "generatorURL" PyVal.none)
    Except.ok
      { id := genId idx, provider := Provider.prometheus, received_at := now,
        starts_at := parse_datetime (pyGetD ad "startsAt" PyVal.none),
        ends_at := parse_datetime (pyGetD ad "endsAt" PyVal.none),
        service := se.1, env := se.2, severity := severity, signal_type := st,
        metric := orOptStr (alookup labels "metric") (alookup annots "metric"),
        observed := observed, threshold := threshold, unit := unit,
        message := Option.some (orStr (alookup annots "summary")
          (orStr (alookup annots "description") name)),
        labels := labels, annotations := annots, fingerprint := fingerprint,
        source_url := source_url, raw := Option.some (PyVal.dict ad) }
  | _ => Except.error "AttributeError"

/-- The `for a in alerts` loop of `normalize_prometheus`. -/
def promLoop (genId : ℕ → String) (now : ℚ) : ℕ → List PyVal → Except String (List AlertEvent)
  | _, [] => Except.ok []
  | i, a :: rest => do
    let ev ← prometheus_event genId now i a
    let evs ← promLoop genId now (i + 1) rest
    Except.ok (ev :: evs)

/-- `app.triage.normalize.normalize.normalize_prometheus`.  Iterating a
truthy non-list `alerts` value raises in Python: a non-empty string or
dictionary yields string elements whose `.get` raises `AttributeError`, and a
number is not iterable (`TypeError`). -/
def normalize_prometheus (genId : ℕ → String) (now : ℚ) (payload : List (String × PyVal)) :
    Except String (List AlertEvent) := do
  let alertsVal := pyGetD payload "alerts" (PyVal.list [])
  let alertsVal := if pyTruthy alertsVal then alertsVal else PyVal.list []
  let items ←
    match alertsVal with
    | PyVal.list xs => Except.ok xs
    | PyVal.str _ => Except.error "AttributeError"
    | PyVal.dict _ => Except.error "AttributeError"
    | _ => Except.error "TypeError"
  promLoop genId now 0 items

/-- `app.triage.normalize.normalize.normalize_datadog`. -/
def normalize_datadog (genId : ℕ → String) (now : ℚ) (payload : List (String × PyVal)) :
    Except String (List AlertEvent) := do
  let tags0 := pyGetD payload "tags" PyVal.none
  let tags0 := if pyTruthy tags0 then tags0 else PyVal.list []
  let tags :=
    match tags0 with
    | PyVal.list xs => xs
    | _ => []
  let title := pyOr (pyGetD payload "title" PyVal.none)
    (pyOr (pyGetD payload "event_title" PyVal.none) (PyVal.str "datadog_alert"))
  let text := pyOr (pyGetD payload "text" PyVal.none)
    (pyOr (pyGetD payload "message" PyVal.none) (PyVal.str ""))
  let labels := [("title", pyStr title)]
  let annots := [("text", pyStr text)]
  let se := extract_service_env [] (Option.some (tags.map pyStr))
  let st := infer_signal_type (Option.some (pyStr title)) labels annots
  let observed := parse_float (pyGetD payload "observed" PyVal.none)
  let threshold := parse_float (pyGetD payload "threshold" PyVal.none)
  let unitVal := pyGetD payload "unit" PyVal.none
  let severity := parse_severity
    (pyOr (pyGetD payload "alert_type" PyVal.none) (pyGetD payload "severity" PyVal.none))
  let fingerprint := stable_fingerprint
    ["datadog", se.1, se.2, st.value,
      pyStr (pyOr (pyGetD payload "id" PyVal.none) (PyVal.str "")), pyStr title]
  let metric ← asOptStr (pyGetD payload "metric" PyVal.none)
  let source_url ← asOptStr (pyGetD payload "url" PyVal.none)
  Except.ok
    [ { id := genId 0, provider := Provider.datadog, received_at := now,
        starts_at := parse_datetime
          (pyOr (pyGetD payload "date" PyVal.none) (pyGetD payload "triggered_at" PyVal.none)),
        service := se.1, env := se.2, severity := severity, signal_type := st,
        metric := metric, observed := observed, threshold := threshold,
        unit := if pyTruthy unitVal then Option.some (pyStr unitVal) else Option.none,
        message := Option.some (pyStr title),
        labels := labels, annotations := annots, fingerprint := fingerprint,
        source_url := source_url, raw := Option.some (PyVal.dict payload) } ]

/-- `app.triage.normalize.normalize.normalize_betterstack`. -/
def normalize_betterstack (genId : ℕ → String) (now : ℚ) (payload : List (String × PyVal)) :
    Except String (List AlertEvent) := do
  let incident :=
    match pyGetD payload "incident" PyVal.none with
    | PyVal.dict kvs => kvs
    | _ => payload
  let labels ← strDict (pyGetD incident "labels" PyVal.none)
  let annots ← strDict (pyGetD incident "annotations" PyVal.none)
  let servicePy := pyOr (pyGetD incident "service" PyVal.none)
    (pyOr (optStrToPy (alookup labels "service")) (PyVal.str "unknown"))
  let envPy := pyOr (pyGetD incident "env" PyVal.none)
    (pyOr (optStrToPy (alookup labels "env")) (PyVal.str "prod"))
  let title := pyOr (pyGetD incident "name" PyVal.none)
    (pyOr (pyGetD incident "title" PyVal.none) (PyVal.str "betterstack_incident"))
  let st := infer_signal_type (Option.some (pyStr title)) labels annots
  let observed := parse_float (pyOr (pyGetD incident "observed" PyVal.none)
    (optStrToPy (alookup annots "observed")))
  let threshold := parse_float (pyOr (pyGetD incident "threshold" PyVal.none)
    (optStrToPy (alookup annots "threshold")))
  let unitVal := pyOr (pyGetD incident "unit" PyVal.none) (optStrToPy (alookup annots "unit"))
  let severity := parse_severity
    (pyOr (pyGetD incident "severity" PyVal.none) (pyGetD incident "status" PyVal.none))
  let fingerprint := stable_fingerprint
    ["betterstack", pyStr servicePy, pyStr envPy, st.value,
      pyStr (pyOr (pyGetD incident "id" PyVal.none) (PyVal.str "")), pyStr title]
  let metric ← asOptStr (pyGetD incident "metric" PyVal.none)
  let source_url ← asOptStr (pyGetD incident "url" PyVal.none)
  Except.ok
    [ { id := genId 0, provider := Provider.betterstack, received_at := now,
        starts_at := parse_datetime (pyOr (pyGetD incident "started_at" PyVal.none)
          (pyGetD incident "startedAt" PyVal.none)),
        ends_at := parse_datetime (pyOr (pyGetD incident "ended_at" PyVal.none)
          (pyGetD incident "endedAt" PyVal.none)),
        service := pyStr servicePy, env := pyStr envPy,
        severity := severity, signal_type := st,
        metric := metric, observed := observed, threshold := threshold,
        unit := if pyTruthy unitVal then Option.some (pyStr unitVal) else Option.none,
        message := Option.some (pyStr title),
        labels := labels, annotations := annots, fingerprint := fingerprint,
        source_url := source_url, raw := Option.some (PyVal.dict payload) } ]

/-- The generic fallback branch of `normalize_payload`: a single best-effort
event from top-level fields. -/
def normalize_generic (genId : ℕ → String) (now : ℚ) (payload : List (String × PyVal)) :
    Except String (List AlertEvent) := do
  let service := pyStr (pyOr (pyGetD payload "service" PyVal.none) (PyVal.str "unknown"))
  let env := pyStr (pyOr (pyGetD payload "env" PyVal.none) (PyVal.str "prod"))
  let name := pyStr (pyOr (pyGetD payload "name" PyVal.none)
    (pyOr (pyGetD payload "title" PyVal.none) (PyVal.str "generic_alert")))
  let labels :=
    match pyGetD payload "labels" PyVal.none with
    | PyVal.dict kvs => kvs.map (fun kv => (kv.1, pyStr kv.2))
    | _ => []
  let annots :=
    match pyGetD payload "annotations" PyVal.none with
    | PyVal.dict kvs => kvs.map (fun kv => (kv.1, pyStr kv.2))
    | _ => []
  let st := infer_signal_type (Option.some name) labels annots
  let severity := parse_severity (pyGetD payload "severity" PyVal.none)
  let fingerprint := stable_fingerprint ["generic", service, env, st.value, name]
  let metric ← asOptStr (pyGetD payload "metric" PyVal.none)
  let unit ← asOptStr (pyGetD payload "unit" PyVal.none)
  Except.ok
    [ { id := genId 0, provider := Provider.generic, received_at := now,
        starts_at := parse_datetime (pyOr (pyGetD payload "starts_at" PyVal.none)
          (pyGetD payload "startsAt" PyVal.none)),
        ends_at := parse_datetime (pyOr (pyGetD payload "ends_at" PyVal.none)
          (pyGetD payload "endsAt" PyVal.none)),
        service := service, env := env, severity := severity, signal_type := st,
        metric := metric,
        observed := parse_float (pyGetD payload "observed" PyVal.none),
        threshold := parse_float (pyGetD payload "threshold" PyVal.none),
        unit := unit, message := Option.some name,
        labels := labels, annotations := annots, fingerprint := fingerprint,
        raw := Option.some (PyVal.dict payload) } ]

/-- `app.triage.normalize.normalize.normalize_payload`: detect the provider
when no hint is given, return the empty sequence for non-dictionary payloads,
and dispatch to the provider-specific normalizer. -/
def normalize_payload (genId : ℕ → String) (now : ℚ) (provider : Option Provider)
    (payload : PyVal) : Except String (List AlertEvent) := do
  let provider ←
    match provider with
    | Option.some p => Except.ok p
    | Option.none => detect_provider payload
  match payload with
  | PyVal.dict d =>
    match provider with
    | Provider.prometheus => normalize_prometheus genId now d
    | Provider.datadog => normalize_datadog genId now d
    | Provider.betterstack => normalize_betterstack genId now d
    | Provider.generic => normalize_generic genId now d
  | _ => Except.ok []

/-- The warn ratio the default configuration applies to an event's signal
type: 0.90 for saturation, 0.95 for everything else. -/
def warnRatioFor (e : AlertEvent) : ℚ :=
  if e.signal_type = SignalType.saturation then 0.9 else 0.95

/-- Fixture: a critical saturation snapshot with a flat trend. -/
def snap_sat : SignalSnapshot :=
  { signal_type := SignalType.saturation, state := SignalState.critical,
    trend := Trend.flat, last_updated_at := 0 }

/-- Fixture: an incident whose only signal is critical saturation. -/
def inc_sat : Incident :=
  { id := "inc-sat", service := "checkout", env := "prod",
    created_at := 0, updated_at := 0, signals := [(SignalType.saturation, snap_sat)] }

/-- Fixture: a critical errors snapshot. -/
def snap_err : SignalSnapshot :=
  { signal_type := SignalType.errors, state := SignalState.critical,
    trend := Trend.up, last_updated_at := 0 }

/-- Fixture: a critical latency snapshot. -/
def snap_lat : SignalSnapshot :=
  { signal_type := SignalType.latency, state := SignalState.critical,
    trend := Trend.up, last_updated_at := 0 }

/-- Fixture: a critical saturation snapshot with an upward trend. -/
def snap_sat_up : SignalSnapshot :=
  { signal_type := SignalType.saturation, state := SignalState.critical,
    trend := Trend.up, last_updated_at := 0 }

/-- Fixture: an incident with critical errors, latency and saturation. -/
def inc_out : Incident :=
  { id := "inc-out", service := "checkout", env := "prod",
    created_at := 0, updated_at := 0,
    signals := [(SignalType.errors, snap_err), (SignalType.latency, snap_lat),
      (SignalType.saturation, snap_sat_up)] }

/-- Fixture: a bare alert event. -/
def ev_fix : AlertEvent :=
  { id := "e1", provider := Provider.generic, received_at := 50,
    service := "checkout", env := "prod", fingerprint := "fp1" }

/-- Fixture: an open incident for `("checkout", "prod")`. -/
def inc_open : Incident :=
  { id := "inc1", service := "checkout", env := "prod", created_at := 0, updated_at := 10 }

/-- Fixture: a store that already holds `inc_open` and has seen the pair
`("inc1", "fp1")` at time 0. -/
def store_seen : MemoryIncidentStore :=
  { incidents := [("inc1", inc_open)],
    service_env_index := [(("checkout", "prod"), ["inc1"])],
    dedupe_cache := [("inc1:fp1", 0)] }

/-- Fixture: an empty store. -/
def store_empty : MemoryIncidentStore := {}

/-- Fixture: a latency snapshot with a two-entry history. -/
def snap_hist : SignalSnapshot :=
  { signal_type := SignalType.latency, state := SignalState.ok,
    last_updated_at := 0, history := [1, 2] }

/-- Fixture: a latency event carrying an observation and a threshold. -/
def ev_obs : AlertEvent :=
  { id := "e2", provider := Provider.generic, received_at := 0, service := "s",
    env := "prod", signal_type := SignalType.latency,
    observed := Option.some 3, threshold := Option.some 10, fingerprint := "fp2" }

/-- Fixture: a saturation event observed at 95% of its threshold. -/
def ev_ratio : AlertEvent :=
  { id := "e3", provider := Provider.generic, received_at := 0, service := "s",
    env := "prod", signal_type := SignalType.saturation,
    observed := Option.some 1.9, threshold := Option.some 2, fingerprint := "fp3" }

/-- Fixture: a critical-severity event with no numeric fields. -/
def ev_sev : AlertEvent :=
  { id := "e4", provider := Provider.generic, received_at := 0, service := "s",
    env := "prod", severity := Severity.critical, fingerprint := "fp4" }

/-- Looking up the key just inserted by `ainsert` yields the new value. -/
theorem alookup_ainsert {α β : Type} [DecidableEq α] (l : List (α × β)) (k : α) (v : β) :
    alookup (ainsert l k v) k = Option.some v := by
  induction l with
  | nil => simp [ainsert, alookup]
  | cons hd tl ih =>
    obtain ⟨k', v'⟩ := hd
    by_cases h : k' = k <;> simp [ainsert, alookup, h, ih]

/-- C1 (confirmed): for every incident whose saturation signal state is
critical, whose errors and latency states are ok (missing counts as ok), and
whose errors and latency trends are both not `up`, `assess_incident` returns
impact `none`, classification `"capacity_warning"`, confidence 0.65. -/
theorem saturation_isolation (incident : Incident) (prev : Option ImpactLevel)
    (hsat : signal_state incident SignalType.saturation = SignalState.critical)
    (herr : signal_state incident SignalType.errors = SignalState.ok)
    (hlat : signal_state incident SignalType.latency = SignalState.ok)
    (herrup : trend_up incident SignalType.errors = false)
    (hlatup : trend_up incident SignalType.latency = false) :
    (assess_incident incident prev).impact = ImpactLevel.none ∧
    (assess_incident incident prev).classification = "capacity_warning" ∧
    (assess_incident incident prev).confidence = 0.65 := by
  unfold assess_incident
  rw [hsat, herr, hlat, herrup, hlatup]
  simp

/-- Witness for C1: a concrete saturation-only incident. -/
theorem saturation_isolation_witness :
    (assess_incident inc_sat Option.none).impact = ImpactLevel.none ∧
    (assess_incident inc_sat Option.none).classification = "capacity_warning" ∧
    (assess_incident inc_sat Option.none).confidence = 0.65 :=
  saturation_isolation inc_sat Option.none rfl rfl rfl rfl rfl

/-- C2 (confirmed): for every incident whose errors and latency states are
both critical, `assess_incident` returns impact `major`, classification
`"outage"`, confidence 0.9, regardless of saturation — the rule fires with no
further hypotheses. -/
theorem outage_precedence (incident : Incident) (prev : Option ImpactLevel)
    (herr : signal_state incident SignalType.errors = SignalState.critical)
    (hlat : signal_state incident SignalType.latency = SignalState.critical) :
    (assess_incident incident prev).impact = ImpactLevel.major ∧
    (assess_incident incident prev).classification = "outage" ∧
    (assess_incident incident prev).confidence = 0.9 := by
  unfold assess_incident
  rw [herr, hlat]
  simp

/-- Witness for C2: a concrete incident with critical errors and latency and
a critical, upward-trending saturation signal. -/
theorem outage_precedence_witness :
    (assess_incident inc_out Option.none).impact = ImpactLevel.major ∧
    (assess_incident inc_out Option.none).classification = "outage" ∧
    (assess_incident inc_out Option.none).confidence = 0.9 :=
  outage_precedence inc_out Option.none rfl rfl

/-- C3 (confirmed): on a dedupe hit — the store reports the resolved
incident's `(id, fingerprint)` pair as seen within the dedupe window —
`ingest_event` returns the resolved incident completely unchanged and leaves
the store untouched, so the duplicate contributes no alert, no snapshot
update, no re-classification, no status change and no `updated_at` bump. -/
theorem dedupe_idempotent (cfg : CorrelationConfig) (now : ℚ) (freshId : String)
    (store : MemoryIncidentStore) (event : AlertEvent)
    (h : seen_recently store (resolve_incident cfg now freshId store event).id
      event.fingerprint ((cfg.dedupe_window_seconds : ℚ)) now = true) :
    ingest_event cfg now freshId store event =
      (store, resolve_incident cfg now freshId store event) := by
  unfold ingest_event
  simp [h]

/-- Witness for C3: a store that has already seen `("inc1", "fp1")` 50
seconds ago returns `inc_open` unchanged. -/
theorem dedupe_idempotent_witness :
    seen_recently store_seen (resolve_incident defaultConfig 50 "new" store_seen ev_fix).id
      ev_fix.fingerprint ((defaultConfig.dedupe_window_seconds : ℚ)) 50 = true ∧
    ingest_event defaultConfig 50 "new" store_seen ev_fix =
      (store_seen, resolve_incident defaultConfig 50 "new" store_seen ev_fix) :=
  ⟨by with_unfolding_all decide,
   dedupe_idempotent defaultConfig 50 "new" store_seen ev_fix (by with_unfolding_all decide)⟩

/-- C4 (code bug): the normalizer is *not* exception-free for every payload.
For the structured payload `{"alerts": [1]}` the provider detector selects
the alertmanager branch, and `normalize_prometheus` then evaluates
`a.get("labels")` on the integer element `1`, raising `AttributeError`
instead of degrading to fewer events. -/
theorem normalize_raises_on_malformed_alert :
    normalize_payload (fun _ => "id") 0 Option.none
      (PyVal.dict [("alerts", PyVal.list [PyVal.int 1])]) =
      Except.error "AttributeError" := rfl

/-- C5 counterexample: a missing severity value is mapped to `warning`, not
to `info` as the claim states. -/
theorem severity_missing_maps_to_warning :
    parse_severity PyVal.none = Severity.warning ∧
    parse_severity PyVal.none ≠ Severity.info := by decide

/-- C5 (corrected): on every truthy severity value the parser agrees with the
claimed case-insensitive keyword mapping, but every falsy value — missing or
empty included — maps to `warning` (the provider default), not `info`. -/
theorem severity_mapping_amended :
    (∀ v : PyVal, pyTruthy v = true → parse_severity v = parse_severity_spec v) ∧
    (∀ v : PyVal, pyTruthy v = false → parse_severity v = Severity.warning) := by
  constructor
  · intro v hv
    unfold parse_severity parse_severity_spec
    simp [hv]
  · intro v hv
    unfold parse_severity
    simp [hv]

/-- Witness for C5: `"HIGH"` follows the keyword map; the empty string falls
back to `warning`. -/
theorem severity_mapping_amended_witness :
    parse_severity (PyVal.str "HIGH") = parse_severity_spec (PyVal.str "HIGH") ∧
    parse_severity (PyVal.str "") = Severity.warning :=
  ⟨severity_mapping_amended.1 (PyVal.str "HIGH") (by decide),
   severity_mapping_amended.2 (PyVal.str "") (by decide)⟩

/-- C6 counterexample: an occurrence suppressed as a duplicate does *not*
refresh the dedupe timestamp.  With the pair `("inc1", "fp1")` recorded at
time 0 and a duplicate at time 50 (inside the 120-second window), the cache
still maps the key to 0, not to the occurrence time 50. -/
theorem dedupe_timestamp_not_refreshed :
    seen_recently store_seen "inc1" "fp1" ((defaultConfig.dedupe_window_seconds : ℚ)) 50 = true ∧
    alookup (ingest_event defaultConfig 50 "new" store_seen ev_fix).1.dedupe_cache "inc1:fp1" =
      Option.some (0 : ℚ) ∧
    (0 : ℚ) ≠ 50 := by with_unfolding_all decide

/-- C6 (corrected): only an occurrence that is *not* suppressed as a
duplicate refreshes the pair's recorded timestamp to the occurrence time; a
suppressed occurrence leaves the dedupe cache unchanged, so the window
slides with each recorded occurrence. -/
theorem dedupe_window_slides_on_recorded (cfg : CorrelationConfig) (now : ℚ)
    (freshId : String) (store : MemoryIncidentStore) (event : AlertEvent) :
    (seen_recently store (resolve_incident cfg now freshId store event).id event.fingerprint
        ((cfg.dedupe_window_seconds : ℚ)) now = false →
      alookup (ingest_event cfg now freshId store event).1.dedupe_cache
        ((resolve_incident cfg now freshId store event).id ++ ":" ++ event.fingerprint) =
        Option.some now) ∧
    (seen_recently store (resolve_incident cfg now freshId store event).id event.fingerprint
        ((cfg.dedupe_window_seconds : ℚ)) now = true →
      (ingest_event cfg now freshId store event).1.dedupe_cache = store.dedupe_cache) := by
  constructor
  · intro h
    unfold ingest_event
    simp [h, upsert, mark_seen, alookup_ainsert]
  · intro h
    unfold ingest_event
    simp [h]

/-- Witness for C6: on an empty store the first occurrence records the pair
at the occurrence time. -/
theorem dedupe_window_slides_on_recorded_witness :
    alookup (ingest_event defaultConfig 0 "n1" store_empty ev_fix).1.dedupe_cache
      ((resolve_incident defaultConfig 0 "n1" store_empty ev_fix).id ++ ":" ++ ev_fix.fingerprint) =
      Option.some (0 : ℚ) :=
  (dedupe_window_slides_on_recorded defaultConfig 0 "n1" store_empty ev_fix).1
    (by with_unfolding_all decide)

/-- C7 (confirmed): with the default configuration, an event carrying both an
observed value and a threshold is critical exactly when `observed ≥
threshold`, warning exactly when it is below the threshold but at least
`threshold × warnRatio` (0.90 for saturation, 0.95 otherwise), and ok
exactly when it is below both; an event missing either value takes its state
from its severity, ignoring the numeric fields. -/
theorem compute_state_characterization (e : AlertEvent) :
    (∀ o t : ℚ, e.observed = Option.some o → e.threshold = Option.some t →
      ((compute_state e defaultConfig = SignalState.critical ↔ t ≤ o) ∧
       (compute_state e defaultConfig = SignalState.warning ↔
         o < t ∧ t * warnRatioFor e ≤ o) ∧
       (compute_state e defaultConfig = SignalState.ok ↔
         o < t ∧ o < t * warnRatioFor e))) ∧
    ((e.observed = Option.none ∨ e.threshold = Option.none) →
      compute_state e defaultConfig =
        (if e.severity = Severity.critical then SignalState.critical
         else if e.severity = Severity.warning then SignalState.warning
         else SignalState.ok)) := by
  constructor
  · intro o t ho ht
    have hws : (if e.signal_type = SignalType.saturation then
        defaultConfig.saturation_warn_ratio else defaultConfig.generic_warn_ratio) =
        warnRatioFor e := by
      unfold warnRatioFor defaultConfig
      rfl
    unfold compute_state
    rw [ho, ht]
    simp only [hws]
    rcases le_or_lt t o with h1 | h1
    · rw [if_pos h1]
      refine ⟨⟨fun _ => h1, fun _ => rfl⟩, ?_, ?_⟩
      · constructor
        · intro hc
          exact absurd hc (by decide)
        · rintro ⟨hlt, -⟩
          exact absurd h1 (not_le.mpr hlt)
      · constructor
        · intro hc
          exact absurd hc (by decide)
        · rintro ⟨hlt, -⟩
          exact absurd h1 (not_le.mpr hlt)
    · rw [if_neg (not_le.mpr h1)]
      rcases le_or_lt (t * warnRatioFor e) o with h2 | h2
      · rw [if_pos h2]
        refine ⟨?_, ⟨fun _ => ⟨h1, h2⟩, fun _ => rfl⟩, ?_⟩
        · constructor
          · intro hc
            exact absurd hc (by decide)
          · intro hle
            exact absurd hle (not_le.mpr h1)
        · constructor
          · intro hc
            exact absurd hc (by decide)
          · rintro ⟨-, hlt⟩
            exact absurd h2 (not_le.mpr hlt)
      · rw [if_neg (not_le.mpr h2)]
        refine ⟨?_, ?_, ⟨fun _ => ⟨h1, h2⟩, fun _ => rfl⟩⟩
        · constructor
          · intro hc
            exact absurd hc (by decide)
          · intro hle
            exact absurd hle (not_le.mpr h1)
        · constructor
          · intro hc
            exact absurd hc (by decide)
          · rintro ⟨-, hle⟩
            exact absurd hle (not_le.mpr h2)
  · intro h
    unfold compute_state
    rcases h with h | h
    · rw [h]
    · rw [h]
      rcases e.observed with _ | o <;> rfl

/-- Witness for C7: a saturation event at 95% of threshold is `warning` via
the ratio rule, and a critical-severity event with no numeric fields is
`critical` via the severity fallback. -/
theorem compute_state_characterization_witness :
    compute_state ev_ratio defaultConfig = SignalState.warning ∧
    compute_state ev_sev defaultConfig = SignalState.critical :=
  ⟨(((compute_state_characterization ev_ratio).1 1.9 2 rfl rfl).2.1).mpr
      (by with_unfolding_all decide),
   ((compute_state_characterization ev_sev).2 (Or.inl rfl)).trans (by decide)⟩

/-- The three trailing `getD` reads of `compute_trend` on a list ending in
`[a, b, c]` are `a`, `b`, `c`. -/
theorem compute_trend_last_three (pre : List ℚ) (a b c : ℚ) :
    compute_trend (pre ++ [a, b, c]) =
      (if b < c ∧ a < b ∧ (1e-6 : ℚ) < c - a then Trend.up
       else if c < b ∧ b < a ∧ (1e-6 : ℚ) < a - c then Trend.down
       else Trend.flat) := by
  have hlen : (pre ++ [a, b, c]).length = pre.length + 3 := by
    simp
  have hnot : ¬ (pre ++ [a, b, c]).length < 3 := by
    rw [hlen]; omega
  have ha : (pre ++ [a, b, c]).getD ((pre ++ [a, b, c]).length - 3) 0 = a := by
    rw [hlen, Nat.add_sub_cancel,
      List.getD_append_right pre [a, b, c] 0 pre.length le_rfl, Nat.sub_self]
    rfl
  have hb : (pre ++ [a, b, c]).getD ((pre ++ [a, b, c]).length - 2) 0 = b := by
    have h2 : pre.length + 3 - 2 = pre.length + 1 := by omega
    rw [hlen, h2, List.getD_append_right pre [a, b, c] 0 (pre.length + 1) (by omega),
      Nat.add_sub_cancel_left]
    rfl
  have hc : (pre ++ [a, b, c]).getD ((pre ++ [a, b, c]).length - 1) 0 = c := by
    have h2 : pre.length + 3 - 1 = pre.length + 2 := by omega
    rw [hlen, h2, List.getD_append_right pre [a, b, c] 0 (pre.length + 2) (by omega),
      Nat.add_sub_cancel_left]
    rfl
  unfold compute_trend
  rw [if_neg hnot, ha, hb, hc]


/-- A list of length three is literally `[a, b, c]`. -/
theorem list_len_three (l : List ℚ) (hl : l.length = 3) : ∃ a b c, l = [a, b, c] := by
  rcases l with _ | ⟨a, l⟩
  · simp at hl
  rcases l with _ | ⟨b, l⟩
  · simp at hl
  rcases l with _ | ⟨c, l⟩
  · simp at hl
  rcases l with _ | ⟨d, l⟩
  · exact ⟨a, b, c, rfl⟩
  · simp at hl

/-- Every list with at least three entries ends in three entries. -/
theorem exists_last_three (h : List ℚ) (h3 : 3 ≤ h.length) :
    ∃ pre a b c, h = pre ++ [a, b, c] := by
  have hd : (h.drop (h.length - 3)).length = 3 := by
    rw [List.length_drop]
    omega
  obtain ⟨a, b, c, habc⟩ := list_len_three _ hd
  exact ⟨h.take (h.length - 3), a, b, c, by rw [← habc, List.take_append_drop]⟩

/-- `compute_trend` is `unknown` exactly on histories shorter than three. -/
theorem compute_trend_unknown_iff (h : List ℚ) :
    compute_trend h = Trend.unknown ↔ h.length < 3 := by
  constructor
  · intro hu
    by_contra h3
    push_neg at h3
    obtain ⟨pre, a, b, c, rfl⟩ := exists_last_three h h3
    rw [compute_trend_last_three] at hu
    split_ifs at hu
  · intro h3
    unfold compute_trend
    rw [if_pos h3]

/-- The history stored by a snapshot update, as a function of the prior
history and the event's observation. -/
theorem update_history_eq (snapshot : Option SignalSnapshot) (event : AlertEvent)
    (now : ℚ) (cfg : CorrelationConfig) :
    (update_signal_snapshot snapshot event now cfg).history =
      (match event.observed with
       | Option.some o =>
         if cfg.max_signal_history < (snapHistory snapshot ++ [o]).length then
           pySliceLast cfg.max_signal_history (snapHistory snapshot ++ [o])
         else snapHistory snapshot ++ [o]
       | Option.none => snapHistory snapshot) := by
  unfold update_signal_snapshot snapHistory
  rcases snapshot with _ | s <;> rfl

/-- C8 (confirmed): after every snapshot update (from a history within the
bound, with a positive `max_signal_history` as in the default 12) the
history holds at most `max_signal_history` entries; an absent observation
leaves the history untouched, a present one appends it and keeps a suffix
(oldest entries dropped first, arrival order preserved) of exactly
`min max (old + 1)` entries; the stored trend is `compute_trend` of the
stored history, which is `unknown` exactly below three entries and otherwise
classifies the last three entries `a, b, c` by the strict-monotonicity and
`1e-6`-epsilon rules. -/
theorem history_bound_and_trend (snapshot : Option SignalSnapshot) (event : AlertEvent)
    (now : ℚ) (cfg : CorrelationConfig)
    (hpos : 0 < cfg.max_signal_history)
    (hlen : (snapHistory snapshot).length ≤ cfg.max_signal_history) :
    (update_signal_snapshot snapshot event now cfg).history.length ≤ cfg.max_signal_history ∧
    (event.observed = Option.none →
      (update_signal_snapshot snapshot event now cfg).history = snapHistory snapshot) ∧
    (∀ o : ℚ, event.observed = Option.some o →
      ((update_signal_snapshot snapshot event now cfg).history <:+
        (snapHistory snapshot ++ [o]) ∧
       (update_signal_snapshot snapshot event now cfg).history.length =
         min cfg.max_signal_history ((snapHistory snapshot).length + 1))) ∧
    (update_signal_snapshot snapshot event now cfg).trend =
      compute_trend (update_signal_snapshot snapshot event now cfg).history ∧
    (∀ h : List ℚ, compute_trend h = Trend.unknown ↔ h.length < 3) ∧
    (∀ (pre : List ℚ) (a b c : ℚ),
      compute_trend (pre ++ [a, b, c]) =
        (if b < c ∧ a < b ∧ (1e-6 : ℚ) < c - a then Trend.up
         else if c < b ∧ b < a ∧ (1e-6 : ℚ) < a - c then Trend.down
         else Trend.flat)) := by
  have trend_eq : (update_signal_snapshot snapshot event now cfg).trend =
      compute_trend (update_signal_snapshot snapshot event now cfg).history := by
    unfold update_signal_snapshot
    rcases snapshot with _ | s <;> rfl
  have happ : ∀ o : ℚ, (snapHistory snapshot ++ [o]).length =
      (snapHistory snapshot).length + 1 := fun o => by simp
  refine ⟨?_, ?_, ?_, trend_eq, compute_trend_unknown_iff, compute_trend_last_three⟩
  · rw [update_history_eq]
    rcases hobs : event.observed with _ | o
    · exact hlen
    · simp only []
      by_cases hgt : cfg.max_signal_history < (snapHistory snapshot ++ [o]).length
      · rw [if_pos hgt]
        unfold pySliceLast
        rw [if_neg (by omega), List.length_drop]
        omega
      · rw [if_neg hgt]
        omega
  · intro hobs
    rw [update_history_eq, hobs]
  · intro o hobs
    rw [update_history_eq, hobs]
    simp only []
    by_cases hgt : cfg.max_signal_history < (snapHistory snapshot ++ [o]).length
    · rw [if_pos hgt]
      unfold pySliceLast
      rw [if_neg (by omega)]
      refine ⟨List.drop_suffix _ _, ?_⟩
      rw [List.length_drop]
      have hl := happ o
      omega
    · rw [if_neg hgt]
      rw [happ o] at hgt ⊢
      refine ⟨List.suffix_refl _, ?_⟩
      exact (min_eq_right (show (snapHistory snapshot).length + 1 ≤ cfg.max_signal_history by
        omega)).symm

/-- Witness for C8: updating a two-entry history `[1, 2]` with observation 3
under the default configuration. -/
theorem history_bound_and_trend_witness :
    ((update_signal_snapshot (Option.some snap_hist) ev_obs 0 defaultConfig).history.length ≤
      defaultConfig.max_signal_history ∧
    (ev_obs.observed = Option.none →
      (update_signal_snapshot (Option.some snap_hist) ev_obs 0 defaultConfig).history =
        snapHistory (Option.some snap_hist)) ∧
    (∀ o : ℚ, ev_obs.observed = Option.some o →
      ((update_signal_snapshot (Option.some snap_hist) ev_obs 0 defaultConfig).history <:+
        (snapHistory (Option.some snap_hist) ++ [o]) ∧
       (update_signal_snapshot (Option.some snap_hist) ev_obs 0 defaultConfig).history.length =
         min defaultConfig.max_signal_history
           ((snapHistory (Option.some snap_hist)).length + 1))) ∧
    (update_signal_snapshot (Option.some snap_hist) ev_obs 0 defaultConfig).trend =
      compute_trend
        (update_signal_snapshot (Option.some snap_hist) ev_obs 0 defaultConfig).history ∧
    (∀ h : List ℚ, compute_trend h = Trend.unknown ↔ h.length < 3) ∧
    (∀ (pre : List ℚ) (a b c : ℚ),
      compute_trend (pre ++ [a, b, c]) =
        (if b < c ∧ a < b ∧ (1e-6 : ℚ) < c - a then Trend.up
         else if c < b ∧ b < a ∧ (1e-6 : ℚ) < a - c then Trend.down
         else Trend.flat))) :=
  history_bound_and_trend (Option.some snap_hist) ev_obs 0 defaultConfig
    (by decide) (by decide)

/-- C9 (confirmed): `derive_status` equals the ordered first-match rule list
the claim states — recovery to `resolved` (previous impact major/minor, new
impact none, classification exactly `"healthy"`), then `investigating` on
major/minor impact, then `watch` on `"capacity_warning"`, then `watch` with
at least one recorded alert, else `resolved`. -/
theorem status_rules_ordered (impact : ImpactAssessment) (incident : Incident)
    (prev : Option ImpactLevel) :
    derive_status impact incident prev = derive_status_spec impact incident prev := by
  by_cases h1 : impact.impact = ImpactLevel.none
  · by_cases h2 : prev = Option.some ImpactLevel.major ∨ prev = Option.some ImpactLevel.minor
    · by_cases h3 : impact.classification = "healthy"
      · simp [derive_status, derive_status_spec, first_match, h1, h2, h3]
      · by_cases h4 : impact.classification = "capacity_warning"
        · simp [derive_status, derive_status_spec, first_match, h1, h2, h3, h4]
        · by_cases h5 : incident.alerts.isEmpty <;>
            simp [derive_status, derive_status_spec, first_match, h1, h2, h3, h4, h5]
    · by_cases h4 : impact.classification = "capacity_warning"
      · simp [derive_status, derive_status_spec, first_match, h1, h2, h4]
      · by_cases h5 : incident.alerts.isEmpty <;>
          simp [derive_status, derive_status_spec, first_match, h1, h2, h4, h5]
  · by_cases h6 : impact.impact = ImpactLevel.major ∨ impact.impact = ImpactLevel.minor
    · simp [derive_status, derive_status_spec, first_match, h1, h6]
    · rcases himp : impact.impact with _ | _ | _
      · exact absurd himp h1
      · exact absurd (Or.inr himp) h6
      · exact absurd (Or.inl himp) h6

/-- C10 (confirmed): `derive_status` only ever returns `watch`,
`investigating` or `resolved` — never `mitigating` — and consequently
`ingest_event` never produces an incident with status `mitigating` unless
the resolved incident already carried it. -/
theorem no_mitigating_status :
    (∀ (impact : ImpactAssessment) (incident : Incident) (prev : Option ImpactLevel),
      derive_status impact incident prev = IncidentStatus.watch ∨
      derive_status impact incident prev = IncidentStatus.investigating ∨
      derive_status impact incident prev = IncidentStatus.resolved) ∧
    (∀ (cfg : CorrelationConfig) (now : ℚ) (freshId : String)
        (store : MemoryIncidentStore) (event : AlertEvent),
      (resolve_incident cfg now freshId store event).status ≠ IncidentStatus.mitigating →
      (ingest_event cfg now freshId store event).2.status ≠ IncidentStatus.mitigating) := by
  have hd : ∀ (impact : ImpactAssessment) (incident : Incident) (prev : Option ImpactLevel),
      derive_status impact incident prev = IncidentStatus.watch ∨
      derive_status impact incident prev = IncidentStatus.investigating ∨
      derive_status impact incident prev = IncidentStatus.resolved := by
    intro impact incident prev
    unfold derive_status
    split_ifs <;> simp
  have hnm : ∀ (impact : ImpactAssessment) (incident : Incident) (prev : Option ImpactLevel),
      derive_status impact incident prev ≠ IncidentStatus.mitigating := by
    intro impact incident prev
    rcases hd impact incident prev with h' | h' | h' <;> simp [h']
  refine ⟨hd, ?_⟩
  intro cfg now freshId store event h
  unfold ingest_event
  by_cases hseen : seen_recently store (resolve_incident cfg now freshId store event).id
      event.fingerprint ((cfg.dedupe_window_seconds : ℚ)) now = true
  · simp only [hseen, if_true]
    exact h
  · rw [Bool.not_eq_true] at hseen
    simp only [hseen, Bool.false_eq_true, if_false]
    exact hnm _ _ _

/-- Witness for C10: ingesting an event into an empty store yields an
incident whose status is not `mitigating`. -/
theorem no_mitigating_status_witness :
    (ingest_event defaultConfig 0 "n2" store_empty ev_fix).2.status ≠
      IncidentStatus.mitigating :=
  no_mitigating_status.2 defaultConfig 0 "n2" store_empty ev_fix
    (by with_unfolding_all decide)
